import Mathlib

/-!
Shallow embedding of the Bitget exchange adapter
(`patch/exchange/bitget.py`) and verification of the spec claims about it.

Python dicts are embedded as association lists in which an EARLIER entry
shadows a later one: `dget` scans from the left, so Python's
`d.update(new)` (newer bindings win) is embedded as `new ++ d`, and a
single assignment `d[k] = v` as `(k, v) :: d`.  For literal dicts with
distinct keys the embedding agrees with the Python dict regardless of
entry order.
-/

set_option linter.unusedVariables false

namespace BitgetAdapter

/-- Trading modes supported by freqtrade (`TradingMode` enum). -/
inductive TradingMode where
  | spot
  | margin
  | futures
deriving DecidableEq, Repr

/-- Margin modes (`MarginMode` enum); the adapter only cares whether one
is set (`self.margin_mode` truthiness), so an unset mode is `none`. -/
inductive MarginMode where
  | cross
  | isolated
deriving DecidableEq, Repr

/-- Python values appearing in the dicts handled by the adapter. -/
inductive PVal where
  | str : String → PVal
  | num : Int → PVal
  | bool : Bool → PVal
  | strList : List String → PVal
  | dict : List (String × PVal) → PVal

/-- Python truthiness of an embedded value. -/
def pvalTruthy : PVal → Bool
  | .str s => s ≠ ""
  | .num n => n ≠ 0
  | .bool b => b
  | .strList l => !l.isEmpty
  | .dict d => !d.isEmpty

/-- Dict lookup: first (leftmost) binding for the key wins. -/
def dget {V : Type} (d : List (String × V)) (k : String) : Option V :=
  (d.find? (fun p => p.1 == k)).map (fun p => p.2)

/-- Lookup distributes over append: the left list is consulted first. -/
theorem dget_append {V : Type} (a b : List (String × V)) (k : String) :
    dget (a ++ b) k = (dget a k).or (dget b k) := by
  unfold dget
  rw [List.find?_append]
  cases List.find? (fun p => p.1 == k) a <;> simp [Option.or]

/-- Base capability table `Bitget._ft_has` (translated from the source). -/
def ft_has : List (String × PVal) :=
  [("ohlcv_has_history", .bool true),
   ("order_time_in_force", .strList ["GTC", "FOK", "IOC"]),
   ("ws_enabled", .bool true),
   ("trades_has_history", .bool false),
   ("fetch_orders_limit_minutes", .num (7 * 1440))]

/-- Futures capability overrides `Bitget._ft_has_futures` (translated from
the source; `PriceType` enum keys of the stop-price mapping are embedded
by their enum names). -/
def ft_has_futures : List (String × PVal) :=
  [("ohlcv_has_history", .bool true),
   ("mark_ohlcv_timeframe", .str "4h"),
   ("funding_fee_timeframe", .str "8h"),
   ("funding_fee_candle_limit", .num 200),
   ("stoploss_on_exchange", .bool true),
   ("stoploss_order_types", .dict [("limit", .str "limit"), ("market", .str "market")]),
   ("stoploss_blocks_assets", .bool false),
   ("stop_price_prop", .str "stopPx"),
   ("stop_price_type_field", .str "triggerType"),
   ("stop_price_type_value_mapping",
     .dict [("LAST", .str "latest_price"),
            ("MARK", .str "mark_price"),
            ("INDEX", .str "index_price")]),
   ("exchange_has_overrides", .dict [("fetchOrder", .bool true)])]

/-- Modelled from the spec: the merge of the base capability table with the
trading-mode-specific override table happens in the base `Exchange` class,
which is not part of this repository; per the spec, the
"trading-mode-specific table wins over base table on key collision".
In the earlier-shadows embedding the winning table goes first. -/
def mergedCapabilities {V : Type} (base futures : List (String × V))
    (mode : TradingMode) : List (String × V) :=
  if mode = .futures then futures ++ base else base

/-- `Bitget._ccxt_config`: start from the mode-dependent default-type
options, then `config.update(super()._ccxt_config)` lets every base-class
binding win; in the earlier-shadows embedding the base config goes first. -/
def ccxt_config (mode : TradingMode) (baseConfig : List (String × PVal)) :
    List (String × PVal) :=
  baseConfig ++
    (match mode with
     | .spot => [("options", .dict [("defaultType", .str "spot")])]
     | .futures => [("options", .dict [("defaultType", .str "swap")])]
     | .margin => [])

/-- Result of `Bitget.fetch_positions`: which underlying call is made. -/
inductive PositionsCall where
  | rawAll
  | basePair : String → PositionsCall
deriving DecidableEq, Repr

/-- `Bitget.fetch_positions`: `if not pair` (i.e. `None` or the empty
string) call the raw client with no symbol filter, else delegate to the
base class with that pair. -/
def fetch_positions (pair : Option String) : PositionsCall :=
  match pair with
  | none => .rawAll
  | some p => if p = "" then .rawAll else .basePair p

/-- `Bitget._order_needs_price`: market orders need no price. -/
def order_needs_price (side : String) (ordertype : String) : Bool :=
  ordertype != "market"

/-- `Bitget._get_params`: the base-class result `baseParams` is taken as
given; in futures mode with a margin mode set, `params["positionIdx"] = 1`
adds one binding (earlier-shadows embedding: it is prepended). -/
def get_params (mode : TradingMode) (marginMode : Option MarginMode)
    (side : String) (ordertype : String) (leverage : Int) (reduceOnly : Bool)
    (time_in_force : String) (baseParams : List (String × PVal)) :
    List (String × PVal) :=
  if mode = .futures ∧ marginMode.isSome then
    ("positionIdx", .num 1) :: baseParams
  else baseParams

/-- A call issued by `Bitget._lev_prep`, with the arguments it passes. -/
inductive LevCall where
  | setMarginMode : String → Option MarginMode → Bool →
      List (String × PVal) → LevCall
  | setLeverage : Int → String → Bool → LevCall

/-- `Bitget._lev_prep` as the sequence of outbound calls it makes: nothing
in spot mode, else `set_margin_mode` (with `accept_fail=True` and
`params={"leverage": leverage}`) followed by `_set_leverage` (with
`accept_fail=True`). -/
def lev_prep_calls (mode : TradingMode) (marginMode : Option MarginMode)
    (pair : String) (leverage : Int) (side : String) (accept_fail : Bool) :
    List LevCall :=
  if mode ≠ .spot then
    [.setMarginMode pair marginMode true [("leverage", .num leverage)],
     .setLeverage leverage pair true]
  else []

/-- Modelled from the spec: the base-class `set_margin_mode` is not part
of this repository; per the spec, its failure is "swallowed
(`accept_fail`)" when the operation is best-effort and surfaced otherwise.
`fails` says whether the underlying exchange call fails. -/
def set_margin_mode_raises (fails : Bool) (accept_fail : Bool) : Bool :=
  fails && !accept_fail

/-- Modelled from the spec: the base-class `_set_leverage`, with the same
best-effort semantics as `set_margin_mode`. -/
def set_leverage_raises (fails : Bool) (accept_fail : Bool) : Bool :=
  fails && !accept_fail

/-- Whether `Bitget._lev_prep` raises, given its own `accept_fail`
argument and whether each underlying call fails.  The source hard-codes
`accept_fail=True` in both inner calls. -/
def lev_prep_raises (mode : TradingMode) (accept_fail : Bool)
    (marginFails levFails : Bool) : Bool :=
  if mode ≠ .spot then
    if set_margin_mode_raises marginFails true then true
    else set_leverage_raises levFails true
  else false

/-- ccxt transport-error classes relevant to the `except` clauses of
`additional_exchange_init`, abstracted by which `isinstance` tests they
satisfy (ccxt hierarchy: `DDoSProtection < NetworkError < OperationFailed
< BaseError`, and `ExchangeError < BaseError` on a separate branch). -/
inductive CcxtError where
  | ddosProtection
  | otherOperationFailed
  | exchangeError
  | otherBaseError
deriving DecidableEq, Repr

/-- `isinstance(e, ccxt.DDoSProtection)`. -/
def isDDoSProtection : CcxtError → Bool
  | .ddosProtection => true
  | _ => false

/-- `isinstance(e, ccxt.OperationFailed)` (DDoSProtection is a subclass). -/
def isOperationFailed : CcxtError → Bool
  | .ddosProtection => true
  | .otherOperationFailed => true
  | _ => false

/-- `isinstance(e, ccxt.ExchangeError)`. -/
def isExchangeError : CcxtError → Bool
  | .exchangeError => true
  | _ => false

/-- Freqtrade error taxonomy used by the adapter. -/
inductive FtError where
  | ddosProtection
  | temporaryError
  | operationalException
deriving DecidableEq, Repr

/-- The `except` clauses of `Bitget.additional_exchange_init`, in source
order: `ccxt.DDoSProtection`, then `(ccxt.OperationFailed,
ccxt.ExchangeError)`, then `ccxt.BaseError`. -/
def classify_transport_error (e : CcxtError) : FtError :=
  if isDDoSProtection e then .ddosProtection
  else if isOperationFailed e || isExchangeError e then .temporaryError
  else .operationalException

/-- Outcome of the retry wrapper. -/
inductive RetryOutcome where
  | success
  | fatal
deriving DecidableEq, Repr

/-- Modelled from the spec: the `retrier` decorator is not part of this
repository; per the spec, a retryable failure "triggers bounded retry
... up to a configured attempt count; exceeding it escalates to
FatalFailure".  `f n = true` means attempt number `n` succeeds; the
result pairs the number of attempts made with the outcome. -/
def retrier_go (fuel : Nat) (made : Nat) (f : Nat → Bool) :
    Nat × RetryOutcome :=
  match fuel with
  | 0 => (made, .fatal)
  | k + 1 => if f made then (made + 1, .success) else retrier_go k (made + 1) f

/-- Modelled from the spec: run a retry-wrapped call with at most
`maxAttempts` attempts. -/
def retrier_run (maxAttempts : Nat) (f : Nat → Bool) : Nat × RetryOutcome :=
  retrier_go maxAttempts 0 f

/-- Python truthiness of `market.get("swap", False)`. -/
def swapTruthy (market : List (String × PVal)) : Bool :=
  match dget market "swap" with
  | some v => pvalTruthy v
  | none => false

/-- `Bitget.market_is_future`: the base-class predicate result is taken as
given (`baseIsFuture`); the source returns
`main and market.get("swap", False)`. -/
def market_is_future (baseIsFuture : Bool) (market : List (String × PVal)) :
    Bool :=
  baseIsFuture && swapTruthy market

/-- Claim C1: `fetch_positions` with no pair (or an empty pair) requests
positions for all symbols via the raw client with no symbol filter; with a
specific pair it delegates to the base class with that pair. -/
theorem C1_fetch_positions_symbol_filter :
    fetch_positions none = .rawAll ∧
    fetch_positions (some "") = .rawAll ∧
    ∀ p : String, p ≠ "" → fetch_positions (some p) = .basePair p := by
  refine ⟨rfl, rfl, fun p hp => ?_⟩
  simp [fetch_positions, hp]

/-- Claim C1 witness: a concrete non-empty pair delegates to the base
class. -/
theorem C1_fetch_positions_symbol_filter_witness :
    fetch_positions (some "BTC/USDT:USDT") = .basePair "BTC/USDT:USDT" :=
  C1_fetch_positions_symbol_filter.2.2 "BTC/USDT:USDT" (by decide)

/-- Claim C2 counterexample: with `_lev_prep` called with
`accept_fail=False` (the operation not marked best-effort) and a failing
`set_margin_mode`, the failure would be surfaced by `set_margin_mode`
itself at that flag, yet `_lev_prep` does not raise — it hard-codes
`accept_fail=True` — so the failure is not surfaced, contradicting the
claim that failures are surfaced when the operation is not best-effort. -/
theorem C2_lev_prep_not_surfaced_counterexample :
    set_margin_mode_raises true false = true ∧
    lev_prep_raises .futures false true false = false := by
  decide

/-- Claim C2 (amended): `_lev_prep` passes `accept_fail=True` to both
`set_margin_mode` and the set-leverage call unconditionally, so their
failures are always swallowed and `_lev_prep` never raises, whatever its
own `accept_fail` argument says; in particular it never raises when the
operation is marked best-effort. -/
theorem C2_lev_prep_never_raises (mode : TradingMode)
    (accept_fail marginFails levFails : Bool) :
    lev_prep_raises mode accept_fail marginFails levFails = false := by
  cases mode <;>
    simp [lev_prep_raises, set_margin_mode_raises, set_leverage_raises]

/-- Claim C3: in FUTURES mode with a margin mode set, `_get_params`
injects `positionIdx = 1` for every side, order type, leverage,
reduce-only flag and time-in-force; in spot mode the adapter adds
nothing, returning the base-class params unchanged. -/
theorem C3_get_params_position_idx :
    (∀ (mm : Option MarginMode) (side ot : String) (lev : Int) (ro : Bool)
        (tif : String) (base : List (String × PVal)), mm.isSome = true →
      dget (get_params .futures mm side ot lev ro tif base) "positionIdx" =
        some (.num 1)) ∧
    (∀ (mm : Option MarginMode) (side ot : String) (lev : Int) (ro : Bool)
        (tif : String) (base : List (String × PVal)),
      get_params .spot mm side ot lev ro tif base = base) := by
  constructor
  · intro mm side ot lev ro tif base h
    simp [get_params, h, dget, List.find?]
  · intro mm side ot lev ro tif base
    simp [get_params]

/-- Claim C3 witness: concrete futures order with isolated margin gets
`positionIdx = 1`; the same order in spot mode gets nothing added. -/
theorem C3_get_params_position_idx_witness :
    dget (get_params .futures (some .isolated) "buy" "limit" 3 false "GTC" [])
        "positionIdx" = some (.num 1) ∧
    get_params .spot (some .isolated) "buy" "limit" 3 false "GTC" [] = [] :=
  ⟨C3_get_params_position_idx.1 (some .isolated) "buy" "limit" 3 false "GTC"
      [] rfl,
   C3_get_params_position_idx.2 (some .isolated) "buy" "limit" 3 false "GTC"
      []⟩

/-- Claim C4: `_order_needs_price` returns `False` exactly when the order
type is `"market"` (and `True` for every other order type), for every
side. -/
theorem C4_order_needs_price_iff (side ot : String) :
    order_needs_price side ot = false ↔ ot = "market" := by
  simp [order_needs_price]

/-- Claim C4 witness: a concrete market order needs no price. -/
theorem C4_order_needs_price_iff_witness :
    order_needs_price "buy" "market" = false :=
  (C4_order_needs_price_iff "buy" "market").mpr rfl

/-- Claim C5: the merged capability table yields the mode-specific value
when the key is in the mode-specific table in futures mode and the base
value otherwise; concretely, base a=1, b=2 with futures override b=3
gives a=1 and b=3 in futures mode and b=2 in spot mode. -/
theorem C5_capability_merge :
    (∀ (V : Type) (base futures : List (String × V)) (k : String),
      dget (mergedCapabilities base futures .futures) k =
        (dget futures k).or (dget base k) ∧
      ∀ m : TradingMode, m ≠ .futures →
        dget (mergedCapabilities base futures m) k = dget base k) ∧
    (dget (mergedCapabilities [("a", (1 : Int)), ("b", 2)] [("b", 3)]
        .futures) "a" = some 1 ∧
     dget (mergedCapabilities [("a", (1 : Int)), ("b", 2)] [("b", 3)]
        .futures) "b" = some 3 ∧
     dget (mergedCapabilities [("a", (1 : Int)), ("b", 2)] [("b", 3)]
        .spot) "b" = some 2) := by
  refine ⟨fun V base futures k => ⟨?_, fun m hm => ?_⟩, by decide, by decide,
    by decide⟩
  · simp [mergedCapabilities, dget_append]
  · simp [mergedCapabilities, hm]

/-- Claim C5 witness: the general merge property applied to the concrete
tables of the round-trip scenario, in spot mode. -/
theorem C5_capability_merge_witness :
    dget (mergedCapabilities [("a", (1 : Int)), ("b", 2)] [("b", 3)] .spot)
        "b" = dget [("a", (1 : Int)), ("b", 2)] "b" :=
  (C5_capability_merge.1 Int [("a", (1 : Int)), ("b", 2)] [("b", 3)]
      "b").2 .spot (by decide)

/-- Claim C6: the `except` clauses of `additional_exchange_init`
re-classify transport errors: `ccxt.DDoSProtection` to `DDosProtection`,
`ccxt.OperationFailed` and `ccxt.ExchangeError` to `TemporaryError`, and
every other transport error — one matching no specific classification
branch — to `OperationalException` (permanent) by default. -/
theorem C6_error_classification :
    classify_transport_error .ddosProtection = .ddosProtection ∧
    classify_transport_error .otherOperationFailed = .temporaryError ∧
    classify_transport_error .exchangeError = .temporaryError ∧
    ∀ e : CcxtError, isDDoSProtection e = false →
      isOperationFailed e = false → isExchangeError e = false →
      classify_transport_error e = .operationalException := by
  refine ⟨rfl, rfl, rfl, fun e h1 h2 h3 => ?_⟩
  simp [classify_transport_error, h1, h2, h3]

/-- Claim C6 witness: a transport error matching no specific branch is
classified as permanent. -/
theorem C6_error_classification_witness :
    classify_transport_error .otherBaseError = .operationalException :=
  C6_error_classification.2.2.2 .otherBaseError rfl rfl rfl

/-- Claim C7: in SPOT mode `_lev_prep` makes no margin-mode or leverage
call; in any other mode it makes exactly `set_margin_mode` first and the
set-leverage call second. -/
theorem C7_lev_prep_sequence :
    (∀ (mm : Option MarginMode) (pair : String) (lev : Int) (side : String)
        (af : Bool), lev_prep_calls .spot mm pair lev side af = []) ∧
    (∀ (mode : TradingMode) (mm : Option MarginMode) (pair : String)
        (lev : Int) (side : String) (af : Bool), mode ≠ .spot →
      lev_prep_calls mode mm pair lev side af =
        [.setMarginMode pair mm true [("leverage", .num lev)],
         .setLeverage lev pair true]) := by
  constructor
  · intro mm pair lev side af
    simp [lev_prep_calls]
  · intro mode mm pair lev side af h
    simp [lev_prep_calls, h]

/-- Claim C7 witness: a concrete futures call makes exactly the two calls
in order. -/
theorem C7_lev_prep_sequence_witness :
    lev_prep_calls .futures (some .cross) "BTC/USDT:USDT" 5 "buy" false =
      [.setMarginMode "BTC/USDT:USDT" (some .cross) true
          [("leverage", .num 5)],
       .setLeverage 5 "BTC/USDT:USDT" true] :=
  C7_lev_prep_sequence.2 .futures (some .cross) "BTC/USDT:USDT" 5 "buy"
    false (by decide)

/-- Helper for C8: when every attempt fails, the retry loop spends all its
fuel and ends fatal, having made one attempt per unit of fuel. -/
theorem retrier_go_all_fail (fuel made : Nat) (f : Nat → Bool)
    (h : ∀ n, f n = false) :
    retrier_go fuel made f = (made + fuel, .fatal) := by
  induction fuel generalizing made with
  | zero => simp [retrier_go]
  | succ k ih =>
    rw [retrier_go, h made, if_neg (by simp), ih]
    have harith : made + 1 + k = made + (k + 1) := by omega
    rw [harith]

/-- Claim C8: a retry-wrapped call whose every attempt fails with a
retryable failure stops after the configured maximum attempt count and
escalates to a fatal failure; with `max_attempts = 3` and three
consecutive rate-limited results, exactly 3 attempts are made and the
outcome is fatal. -/
theorem C8_retrier_exhaustion :
    (∀ (maxAttempts : Nat) (f : Nat → Bool), (∀ n, f n = false) →
      retrier_run maxAttempts f = (maxAttempts, .fatal)) ∧
    retrier_run 3 (fun _ => false) = (3, .fatal) := by
  constructor
  · intro maxAttempts f h
    rw [retrier_run, retrier_go_all_fail maxAttempts 0 f h]
    simp
  · rfl

/-- Claim C8 witness: three always-rate-limited attempts with
`max_attempts = 3` end fatally after exactly 3 attempts. -/
theorem C8_retrier_exhaustion_witness :
    retrier_run 3 (fun _ => false) = (3, .fatal) :=
  C8_retrier_exhaustion.1 3 (fun _ => false) (fun _ => rfl)

/-- Claim C9: `market_is_future` returns `True` only if the base-class
predicate holds and the market's `"swap"` field is truthy; a market dict
without a `"swap"` key is never classified as a future. -/
theorem C9_market_is_future_swap :
    (∀ (b : Bool) (m : List (String × PVal)),
      market_is_future b m = true → b = true ∧ swapTruthy m = true) ∧
    (∀ (b : Bool) (m : List (String × PVal)),
      dget m "swap" = none → market_is_future b m = false) := by
  constructor
  · intro b m h
    simpa [market_is_future] using h
  · intro b m h
    simp [market_is_future, swapTruthy, h]

/-- Claim C9 witness: a market with a truthy `"swap"` field classified as
a future has both conditions; a market without the key is not a future. -/
theorem C9_market_is_future_swap_witness :
    (true = true ∧ swapTruthy [("swap", PVal.bool true)] = true) ∧
    market_is_future true [("symbol", PVal.str "BTC/USDT")] = false :=
  ⟨C9_market_is_future_swap.1 true [("swap", PVal.bool true)] rfl,
   C9_market_is_future_swap.2 true [("symbol", PVal.str "BTC/USDT")] rfl⟩

/-- Claim C10: `_ccxt_config` sets `options.defaultType` to `"spot"` in
SPOT mode and `"swap"` in FUTURES mode, then merges the base-class config
on top, so on any key collision the base-class value appears in the
result. -/
theorem C10_ccxt_config_base_wins :
    (∀ (mode : TradingMode) (base : List (String × PVal)) (k : String)
        (v : PVal), dget base k = some v →
      dget (ccxt_config mode base) k = some v) ∧
    (∀ base : List (String × PVal), dget base "options" = none →
      dget (ccxt_config .spot base) "options" =
        some (.dict [("defaultType", .str "spot")]) ∧
      dget (ccxt_config .futures base) "options" =
        some (.dict [("defaultType", .str "swap")])) := by
  constructor
  · intro mode base k v h
    simp [ccxt_config, dget_append, h]
  · intro base h
    refine ⟨?_, ?_⟩ <;>
      · show dget (base ++ _) "options" = _
        rw [dget_append, h]
        rfl

/-- Claim C10 witness: with a base config that binds `"options"`, the
base value wins; with one that does not, the mode default appears. -/
theorem C10_ccxt_config_base_wins_witness :
    dget (ccxt_config .spot [("options", PVal.str "base")]) "options" =
      some (PVal.str "base") ∧
    dget (ccxt_config .futures [("verbose", PVal.bool false)]) "options" =
      some (.dict [("defaultType", .str "swap")]) :=
  ⟨C10_ccxt_config_base_wins.1 .spot [("options", PVal.str "base")]
      "options" (PVal.str "base") rfl,
   (C10_ccxt_config_base_wins.2 [("verbose", PVal.bool false)] rfl).2⟩

end BitgetAdapter
